import Mathlib

/-!
Verification of the SLICeR operator scripts: a shallow embedding of the pure
logic of `fetch_cybergym_data.py`, `extract_from_cybergym.py` and
`install_codeql.py`. Python strings are modelled as `List Char`; external
commands (git, docker, wget) are modelled by explicit parameters describing
their exit code and their effect on the directories they touch.
-/

/-- Models Python `t.split(":", 1)` guarded by the `":" in t` check
(`fetch_cybergym_data.py` lines 34-36 and `extract_from_cybergym.py`
lines 170-172): `none` when the string has no colon, otherwise the pair
(text before the first colon, text after it, kept whole). -/
def splitFirstColon : List Char → Option (List Char × List Char)
  | [] => none
  | c :: rest =>
    if c = ':' then some ([], rest)
    else
      match splitFirstColon rest with
      | none => none
      | some (a, b) => some (c :: a, b)

/-- Models `parse_task` of `fetch_cybergym_data.py` (lines 33-39):
`raise SystemExit` becomes `Except.error` carrying the message text. -/
def parse_task (t : List Char) : Except (List Char) (List Char × List Char) :=
  match splitFirstColon t with
  | none =>
    Except.error ("Bad task format: ".toList ++ t
      ++ ". Use ns:id (e.g., arvo:66502)".toList)
  | some (ns, tid) =>
    if ns ≠ "arvo".toList ∧ ns ≠ "oss-fuzz".toList then
      Except.error ("Unsupported namespace: ".toList ++ ns)
    else
      Except.ok (ns, tid)

/-- Models `task_path` of `fetch_cybergym_data.py` (lines 41-42):
the f-string `f"data/\x7bns\x7d/\x7btid\x7d"`. -/
def task_path (ns tid : List Char) : List Char :=
  "data/".toList ++ ns ++ "/".toList ++ tid

/-- Models the task-string handling of `extract_from_cybergym.py` `main`
(lines 170-172): only the colon check, then `split(":", 1)`; the
namespace is validated later by `repo_for`. -/
def extract_parse_task (t : List Char) :
    Except (List Char) (List Char × List Char) :=
  match splitFirstColon t with
  | none =>
    Except.error
      "Task must be in the form \x27arvo:<id>\x27 or \x27oss-fuzz:<id>\x27".toList
  | some (ns, tid) => Except.ok (ns, tid)

/-- Models `repo_for` of `extract_from_cybergym.py` (lines 68-73). -/
def repo_for (ns : List Char) : Except (List Char) (List Char) :=
  if ns = "arvo".toList then Except.ok "n132/arvo".toList
  else if ns = "oss-fuzz".toList then Except.ok "cybergym/oss-fuzz-task".toList
  else Except.error ("Unsupported namespace: ".toList ++ ns)

/-- Models the image tag `f"\x7brepo\x7d:\x7btid\x7d-vul"` built in
`extract_from_cybergym.py` line 176. -/
def vul_img (repo tid : List Char) : List Char :=
  repo ++ ":".toList ++ tid ++ "-vul".toList

/-- Models the image tag `f"\x7brepo\x7d:\x7btid\x7d-fix"` built in
`extract_from_cybergym.py` line 176. -/
def fix_img (repo tid : List Char) : List Char :=
  repo ++ ":".toList ++ tid ++ "-fix".toList

/-- A `SystemExit` / non-zero-exit outcome of a modelled step. -/
def isFatal {ε α : Type} : Except ε α → Bool
  | Except.error _ => true
  | Except.ok _ => false

theorem splitFirstColon_eq_none_iff (t : List Char) :
    splitFirstColon t = none ↔ ':' ∉ t := by
  induction t with
  | nil => simp [splitFirstColon]
  | cons c rest ih =>
    by_cases hc : c = ':'
    · subst hc
      simp [splitFirstColon]
    · simp only [splitFirstColon, if_neg hc]
      cases hr : splitFirstColon rest with
      | none =>
        simp only [List.mem_cons]
        constructor
        · intro _ h
          rcases h with h | h
          · exact hc h.symm
          · exact (ih.mp hr) h
        · intro _
          trivial
      | some p =>
        simp only [List.mem_cons]
        constructor
        · intro h
          exact absurd h (by simp)
        · intro h
          exact absurd (ih.mpr (fun hm => h (Or.inr hm))) (by simp [hr])

theorem splitFirstColon_append (ns tid : List Char) (h : ':' ∉ ns) :
    splitFirstColon (ns ++ ':' :: tid) = some (ns, tid) := by
  induction ns with
  | nil => simp [splitFirstColon]
  | cons c rest ih =>
    have hc : c ≠ ':' := fun hc => h (by simp [hc])
    have hrest : ':' ∉ rest := fun hm => h (by simp [hm])
    simp [splitFirstColon, hc, ih hrest]

theorem splitFirstColon_some (t a b : List Char)
    (h : splitFirstColon t = some (a, b)) : t = a ++ ':' :: b ∧ ':' ∉ a := by
  induction t generalizing a b with
  | nil => simp [splitFirstColon] at h
  | cons c rest ih =>
    by_cases hc : c = ':'
    · subst hc
      simp only [splitFirstColon, if_pos rfl, Option.some.injEq, Prod.mk.injEq] at h
      obtain ⟨rfl, rfl⟩ := h
      simp
    · simp only [splitFirstColon, if_neg hc] at h
      cases hr : splitFirstColon rest with
      | none => simp [hr] at h
      | some p =>
        obtain ⟨a', b'⟩ := p
        rw [hr] at h
        simp only [Option.some.injEq, Prod.mk.injEq] at h
        obtain ⟨rfl, rfl⟩ := h
        obtain ⟨ht, hna⟩ := ih a' b' hr
        constructor
        · rw [List.cons_append, ← ht]
        · intro hm
          rcases List.mem_cons.mp hm with h1 | h1
          · exact hc h1.symm
          · exact hna h1

/-- Claim C2 counterexample: the input "bad:1" contains a colon, yet
`parse_task` exits fatally on it (unsupported namespace), so parsing does
not fail exactly when the string contains no colon. -/
theorem parse_task_fails_despite_colon :
    isFatal (parse_task "bad:1".toList) = true ∧ ':' ∈ "bad:1".toList := by
  constructor
  · rfl
  · decide

/-- Claim C2 (amended): parsing splits once on the first colon, keeping an
id with further colons whole; the extractor's split step fails exactly when
the string contains no colon; the fetcher's `parse_task` fails exactly when
the string contains no colon or the namespace part is unrecognized. -/
theorem parse_task_split_behavior (t : List Char) :
    (splitFirstColon t = none ↔ ':' ∉ t) ∧
    (∀ a b, splitFirstColon t = some (a, b) →
      t = a ++ ':' :: b ∧ ':' ∉ a ∧ extract_parse_task t = Except.ok (a, b)) ∧
    (isFatal (extract_parse_task t) = true ↔ ':' ∉ t) ∧
    (isFatal (parse_task t) = true ↔
      (':' ∉ t ∨ ∃ a b, splitFirstColon t = some (a, b) ∧
        a ≠ "arvo".toList ∧ a ≠ "oss-fuzz".toList)) := by
  refine ⟨splitFirstColon_eq_none_iff t, ?_, ?_, ?_⟩
  · intro a b h
    obtain ⟨ht, hna⟩ := splitFirstColon_some t a b h
    exact ⟨ht, hna, by simp [extract_parse_task, h]⟩
  · cases hs : splitFirstColon t with
    | none =>
      simp [extract_parse_task, hs, isFatal, (splitFirstColon_eq_none_iff t).mp hs]
    | some p =>
      obtain ⟨a, b⟩ := p
      have hmem : ':' ∈ t := by
        obtain ⟨ht, _⟩ := splitFirstColon_some t a b hs
        rw [ht]
        simp
      simp [extract_parse_task, hs, isFatal, hmem]
  · cases hs : splitFirstColon t with
    | none =>
      simp [parse_task, hs, isFatal, (splitFirstColon_eq_none_iff t).mp hs]
    | some p =>
      obtain ⟨a, b⟩ := p
      have hmem : ':' ∈ t := by
        obtain ⟨ht, _⟩ := splitFirstColon_some t a b hs
        rw [ht]
        simp
      by_cases hns : a ≠ "arvo".toList ∧ a ≠ "oss-fuzz".toList
      · have hpt : parse_task t
            = Except.error ("Unsupported namespace: ".toList ++ a) := by
          simp only [parse_task, hs]
          rw [if_pos hns]
        rw [hpt]
        simp only [isFatal]
        constructor
        · intro _
          exact Or.inr ⟨a, b, rfl, hns.1, hns.2⟩
        · intro _
          trivial
      · have hpt : parse_task t = Except.ok (a, b) := by
          simp only [parse_task, hs]
          rw [if_neg hns]
        rw [hpt]
        simp only [isFatal, hmem, not_true_eq_false, false_or]
        constructor
        · intro h
          exact absurd h (by simp)
        · rintro ⟨a', b', hab, h1, h2⟩
          simp only [Option.some.injEq, Prod.mk.injEq] at hab
          obtain ⟨rfl, rfl⟩ := hab
          exact absurd ⟨h1, h2⟩ hns

/-- Claim C2 amended, witnessed at the concrete input "arvo:66502". -/
theorem parse_task_split_behavior_w :
    extract_parse_task "arvo:66502".toList
      = Except.ok ("arvo".toList, "66502".toList) :=
  ((parse_task_split_behavior "arvo:66502".toList).2.1
    "arvo".toList "66502".toList (by decide)).2.2

/-- Claim C3: namespace resolution succeeds with a fixed image repository
for exactly "arvo" and "oss-fuzz" and exits fatally for every other
namespace, in both the extractor (`repo_for`) and the fetcher
(`parse_task`). -/
theorem repo_for_total_on_two_namespaces :
    repo_for "arvo".toList = Except.ok "n132/arvo".toList ∧
    repo_for "oss-fuzz".toList = Except.ok "cybergym/oss-fuzz-task".toList ∧
    (∀ ns, ns ≠ "arvo".toList → ns ≠ "oss-fuzz".toList →
      isFatal (repo_for ns) = true ∧
      ∀ tid, ':' ∉ ns → isFatal (parse_task (ns ++ ':' :: tid)) = true) := by
  refine ⟨rfl, rfl, ?_⟩
  intro ns h1 h2
  constructor
  · have hr : repo_for ns
        = Except.error ("Unsupported namespace: ".toList ++ ns) := by
      simp only [repo_for]
      rw [if_neg h1, if_neg h2]
    rw [hr]
    rfl
  · intro tid hc
    have hsp := splitFirstColon_append ns tid hc
    have hpt : parse_task (ns ++ ':' :: tid)
        = Except.error ("Unsupported namespace: ".toList ++ ns) := by
      simp only [parse_task, hsp]
      rw [if_pos ⟨h1, h2⟩]
    rw [hpt]
    rfl

/-- Claim C3, witnessed at the unsupported namespace "zzz". -/
theorem repo_for_total_on_two_namespaces_w :
    isFatal (repo_for "zzz".toList) = true ∧
    isFatal (parse_task ("zzz".toList ++ ':' :: "1".toList)) = true := by
  have h := repo_for_total_on_two_namespaces.2.2 "zzz".toList
    (by decide) (by decide)
  exact ⟨h.1, h.2 "1".toList (by decide)⟩

/-- Claim C9: task parsing places no constraint on the id part: for each
recognized namespace any id — empty, with colons, with slashes — is
accepted, and the id is interpolated verbatim into the repository subpath
and the container image tags. -/
theorem parse_task_id_unconstrained (tid : List Char) :
    parse_task ("arvo:".toList ++ tid) = Except.ok ("arvo".toList, tid) ∧
    parse_task ("oss-fuzz:".toList ++ tid)
      = Except.ok ("oss-fuzz".toList, tid) ∧
    extract_parse_task ("arvo:".toList ++ tid)
      = Except.ok ("arvo".toList, tid) ∧
    task_path "arvo".toList tid = "data/arvo/".toList ++ tid ∧
    vul_img "n132/arvo".toList tid
      = "n132/arvo:".toList ++ (tid ++ "-vul".toList) ∧
    fix_img "n132/arvo".toList tid
      = "n132/arvo:".toList ++ (tid ++ "-fix".toList) := by
  have e1 : "arvo:".toList ++ tid = "arvo".toList ++ ':' :: tid := rfl
  have e2 : "oss-fuzz:".toList ++ tid = "oss-fuzz".toList ++ ':' :: tid := rfl
  have h1 : splitFirstColon ("arvo:".toList ++ tid)
      = some ("arvo".toList, tid) := by
    rw [e1]
    exact splitFirstColon_append _ _ (by decide)
  have h2 : splitFirstColon ("oss-fuzz:".toList ++ tid)
      = some ("oss-fuzz".toList, tid) := by
    rw [e2]
    exact splitFirstColon_append _ _ (by decide)
  refine ⟨?_, ?_, ?_, rfl, ?_, ?_⟩
  · simp only [parse_task, h1]
    rw [if_neg]
    simp
  · simp only [parse_task, h2]
    rw [if_neg]
    simp
  · simp only [extract_parse_task, h1]
  · simp [vul_img, List.append_assoc]
  · simp [fix_img, List.append_assoc]

/-- Claim C9, witnessed at the empty id and at an id containing a colon
and a slash. -/
theorem parse_task_id_unconstrained_w :
    parse_task "arvo:".toList = Except.ok ("arvo".toList, [])  ∧
    parse_task ("arvo:".toList ++ "6:6/2".toList)
      = Except.ok ("arvo".toList, "6:6/2".toList) :=
  ⟨(parse_task_id_unconstrained []).1, (parse_task_id_unconstrained "6:6/2".toList).1⟩

/-- Models the pure core of `extend_sparse_paths` in `fetch_cybergym_data.py`
(lines 79-91): `wanted = sorted(set(cur + paths))`, the list that
`git sparse-checkout set` then installs as the new configured prefix set.
`cur` is the currently configured list read back from git (empty when the
list command fails). -/
def extend_sparse_paths (cur paths : List (List Char)) : List (List Char) :=
  List.insertionSort (· ≤ ·) (cur ++ paths).dedup

theorem mem_extend_sparse_paths (cur paths : List (List Char))
    (x : List Char) :
    x ∈ extend_sparse_paths cur paths ↔ x ∈ cur ∨ x ∈ paths := by
  unfold extend_sparse_paths
  rw [(List.perm_insertionSort _ _).mem_iff, List.mem_dedup, List.mem_append]

theorem extend_sparse_paths_sorted (cur paths : List (List Char)) :
    List.Sorted (· ≤ ·) (extend_sparse_paths cur paths) :=
  List.sorted_insertionSort _ _

theorem extend_sparse_paths_nodup (cur paths : List (List Char)) :
    (extend_sparse_paths cur paths).Nodup :=
  (List.perm_insertionSort _ _).nodup_iff.mpr (List.nodup_dedup _)

/-- Claim C1: the sparse-path extension never drops a currently configured
prefix: the written set is exactly the union of the current set and the
requested task subpaths. -/
theorem extend_sparse_paths_never_shrinks (cur paths : List (List Char)) :
    (∀ x, x ∈ cur → x ∈ extend_sparse_paths cur paths) ∧
    (∀ x, x ∈ extend_sparse_paths cur paths ↔ x ∈ cur ∨ x ∈ paths) :=
  ⟨fun x hx => (mem_extend_sparse_paths cur paths x).mpr (Or.inl hx),
   fun x => mem_extend_sparse_paths cur paths x⟩

/-- Claim C1, witnessed on a concrete current set and request. -/
theorem extend_sparse_paths_never_shrinks_w :
    "data/arvo/1".toList ∈
      extend_sparse_paths ["data/arvo/1".toList] ["data/arvo/2".toList] :=
  (extend_sparse_paths_never_shrinks
      ["data/arvo/1".toList] ["data/arvo/2".toList]).1
    "data/arvo/1".toList (by simp)

/-- Claim C8: the written sparse-path set is sorted and duplicate-free, and
running the extension again with the same requested paths on the set it
just wrote reproduces that set exactly (idempotence). -/
theorem extend_sparse_paths_idempotent (cur paths : List (List Char)) :
    List.Sorted (· ≤ ·) (extend_sparse_paths cur paths) ∧
    (extend_sparse_paths cur paths).Nodup ∧
    extend_sparse_paths (extend_sparse_paths cur paths) paths
      = extend_sparse_paths cur paths := by
  refine ⟨extend_sparse_paths_sorted cur paths,
    extend_sparse_paths_nodup cur paths, ?_⟩
  apply List.eq_of_perm_of_sorted ?_
    (extend_sparse_paths_sorted _ _) (extend_sparse_paths_sorted _ _)
  apply (List.perm_ext_iff_of_nodup
    (extend_sparse_paths_nodup _ _) (extend_sparse_paths_nodup _ _)).mpr
  intro x
  simp only [mem_extend_sparse_paths]
  tauto

/-- Claim C8, witnessed on a concrete current set and request. -/
theorem extend_sparse_paths_idempotent_w :
    extend_sparse_paths
        (extend_sparse_paths ["data/arvo/2".toList] ["data/arvo/1".toList])
        ["data/arvo/1".toList]
      = extend_sparse_paths ["data/arvo/2".toList] ["data/arvo/1".toList] :=
  (extend_sparse_paths_idempotent
    ["data/arvo/2".toList] ["data/arvo/1".toList]).2.2

/-- Observable content of the destination directory of one variant copy. -/
inductive DirContent : Type
  | absent : DirContent
  | emptyDir : DirContent
  | incomplete : DirContent
  | full : DirContent
deriving DecidableEq

/-- Models `docker_cp_dir` of `extract_from_cybergym.py` (lines 51-65).
Lines 52-54 first remove any pre-existing destination and create its
parent, so the destination is absent when the external `docker cp` runs;
that external command is described by its exit code `cpRet` and by
`cpLeft`, the destination state it leaves behind. On a non-zero exit the
function removes the destination exactly when it exists and is empty
(lines 58-59) and returns `false`; otherwise it returns `true` (the
best-effort `chown` changes no directory content). The returned pair is
(return value, final destination state). -/
def docker_cp_dir (cpRet : Nat) (cpLeft : DirContent) : Bool × DirContent :=
  if cpRet ≠ 0 then
    (false, if cpLeft = DirContent.emptyDir then DirContent.absent else cpLeft)
  else
    (true, cpLeft)

/-- `Path.exists()` for a modelled directory state. -/
def dirExists : DirContent → Bool
  | DirContent.absent => false
  | _ => true

/-- Claim C4: assuming `docker cp` leaves the (freshly cleared) destination
fully populated when it succeeds and at most an empty directory when it
fails, each variant copy ends with the destination either fully populated
(and `true` returned) or absent (and `false` returned): no partial state
remains, because a failed copy removes the empty directory it created. -/
theorem docker_cp_dir_no_torn_state (cpRet : Nat) (cpLeft : DirContent)
    (hFail : cpRet ≠ 0 →
      cpLeft = DirContent.absent ∨ cpLeft = DirContent.emptyDir)
    (hSucc : cpRet = 0 → cpLeft = DirContent.full) :
    docker_cp_dir cpRet cpLeft = (true, DirContent.full) ∨
    docker_cp_dir cpRet cpLeft = (false, DirContent.absent) := by
  by_cases h : cpRet = 0
  · left
    simp [docker_cp_dir, h, hSucc h]
  · right
    rcases hFail h with hl | hl <;> simp [docker_cp_dir, h, hl]

/-- Claim C4, witnessed at a failing copy that left an empty directory. -/
theorem docker_cp_dir_no_torn_state_w :
    docker_cp_dir 1 DirContent.emptyDir = (true, DirContent.full) ∨
    docker_cp_dir 1 DirContent.emptyDir = (false, DirContent.absent) :=
  docker_cp_dir_no_torn_state 1 DirContent.emptyDir
    (fun _ => Or.inr rfl) (fun h => absurd h (by decide))

/-- Models the module-level constant `CODEQL_BUILD_SH` of
`extract_from_cybergym.py` (lines 76-148), the raw-string build-script
template; braces and apostrophes of the bash text are written with
hex escapes. -/
def CODEQL_BUILD_SH : String :=
  String.intercalate "\n" [
    "#!/usr/bin/env bash",
    "set -euo pipefail",
    "",
    "ROOT=\"$(pwd)\"",
    "PREFIX=\"$ROOT/_inst\"",
    "BUILD_DIR=\"$ROOT/build\"",
    "NPROC=\"$(getconf _NPROCESSORS_ONLN 2>/dev/null || echo 4)\"",
    "",
    "echo \"[codeql-build] Root: $ROOT\"",
    "echo \"[codeql-build] Prefix: $PREFIX\"",
    "",
    "need() \x7b command -v \"$1\" >/dev/null 2>&1 || \x7b echo \"Missing: $1\"; exit 2; \x7d; \x7d",
    "",
    "if [ -f \"configure.ac\" ] || [ -f \"configure.in\" ] || [ -f \"autogen.sh\" ]; then",
    "  need autoreconf",
    "  if ! command -v libtoolize >/dev/null 2>&1 && ! command -v libtool >/dev/null 2>&1; then",
    "    echo \"Missing: libtool (or libtoolize)\"; exit 2",
    "  fi",
    "  need automake",
    "  need pkg-config",
    "fi",
    "",
    "mkdir -p \"$BUILD_DIR\" \"$PREFIX\"",
    "",
    "if [ -f \"CMakeLists.txt\" ]; then",
    "  echo \"[codeql-build] CMake project detected\"",
    "  cmake -S . -B \"$BUILD_DIR\" -DCMAKE_BUILD_TYPE=Release \\",
    "        -DCMAKE_C_COMPILER=\"$\x7bCC:-cc\x7d\" -DCMAKE_CXX_COMPILER=\"$\x7bCXX:-c++\x7d\" \\",
    "        -DCMAKE_INSTALL_PREFIX=\"$PREFIX\"",
    "  cmake --build \"$BUILD_DIR\" -j\"$NPROC\" || true",
    "  cmake --install \"$BUILD_DIR\" || true",
    "else",
    "  echo \"[codeql-build] Autotools/Make project assumed\"",
    "  if [ -f \"autogen.sh\" ]; then",
    "    ./autogen.sh || true",
    "  elif [ ! -f \"configure\" ] && \x7b [ -f \"configure.ac\" ] || [ -f \"configure.in\" ]; \x7d; then",
    "    autoreconf -fi || true",
    "  fi",
    "  if [ -f \"configure\" ]; then",
    "    CC=$\x7bCC:-gcc\x7d ./configure --without-python --prefix=\"$PREFIX\" || true",
    "  fi",
    "  make -j\"$NPROC\" || true",
    "  make install || true",
    "fi",
    "",
    "cat > \"$BUILD_DIR/_probe.c\" <<\x27EOF\x27",
    "#include <stdio.h>",
    "#ifdef __has_include",
    "# if __has_include(<libxml/parser.h>)",
    "#  include <libxml/parser.h>",
    "# endif",
    "#endif",
    "int main() \x7b",
    "#ifdef LIBXML_TEST_VERSION",
    "  xmlInitParser();",
    "  xmlCleanupParser();",
    "#endif",
    "  puts(\"probe\");",
    "  return 0;",
    "\x7d",
    "EOF",
    "",
    "if command -v pkg-config >/dev/null 2>&1 && pkg-config --exists libxml-2.0 2>/dev/null; then",
    "  cc $(pkg-config --cflags libxml-2.0) \"$BUILD_DIR/_probe.c\" \\",
    "     $(pkg-config --libs libxml-2.0) -o \"$BUILD_DIR/_probe\" || true",
    "else",
    "  cc -I\"$PREFIX/include\" -I\"$PREFIX/include/libxml2\" \\",
    "     -L\"$PREFIX/lib\" \"$BUILD_DIR/_probe.c\" \\",
    "     -lxml2 -o \"$BUILD_DIR/_probe\" || true",
    "fi",
    "",
    "echo \"[codeql-build] Done.\""
  ] ++ "\n"

/-- One file write performed by the extractor: destination path, content,
and whether the file is marked executable (`os.chmod(target, 0o755)`,
best-effort). -/
structure ScriptWrite : Type where
  path : List Char
  content : String
  executable : Bool
deriving DecidableEq

/-- Models `install_codeql_build_sh` of `extract_from_cybergym.py`
(lines 150-159): for each destination directory, write the fixed template
to `<dir>/build.sh` and mark it executable. -/
def install_codeql_build_sh (dst_dirs : List (List Char)) : List ScriptWrite :=
  dst_dirs.map (fun d =>
    ⟨d ++ "/build.sh".toList, CODEQL_BUILD_SH, true⟩)

/-- Models `[d for d in [vul_out, fix_out] if d.exists()]` of
`extract_from_cybergym.py` line 199, which is also exactly the existence
test the final report performs on lines 207-208. -/
def existing_out_dirs (vulOut fixOut : List Char)
    (vulState fixState : DirContent) : List (List Char) :=
  (if dirExists vulState then [vulOut] else []) ++
  (if dirExists fixState then [fixOut] else [])

/-- Models the tail of the extractor's `main` (lines 192-208): run the two
variant copies, install the build script into every destination that
exists, and report the destinations that exist. Returns the two copy
results, the list of script writes, and the list of reported directories. -/
def extractor_tail (vulOut fixOut : List Char)
    (retV : Nat) (leftV : DirContent) (retF : Nat) (leftF : DirContent) :
    (Bool × Bool) × List ScriptWrite × List (List Char) :=
  let rV := docker_cp_dir retV leftV
  let rF := docker_cp_dir retF leftF
  let dirs := existing_out_dirs vulOut fixOut rV.2 rF.2
  ((rV.1, rF.1), install_codeql_build_sh dirs, dirs)

/-- Claim C5: when exactly one of the two variant copies succeeds (under
the `docker cp` behavior assumptions of C4), the build script is still
written — executable — into the surviving variant's directory, and the
final report names that directory and only that one. -/
theorem extractor_tail_one_variant (vulOut fixOut : List Char)
    (retV : Nat) (leftV : DirContent) (retF : Nat) (leftF : DirContent)
    (hFailV : retV ≠ 0 →
      leftV = DirContent.absent ∨ leftV = DirContent.emptyDir)
    (hSuccV : retV = 0 → leftV = DirContent.full)
    (hFailF : retF ≠ 0 →
      leftF = DirContent.absent ∨ leftF = DirContent.emptyDir)
    (hSuccF : retF = 0 → leftF = DirContent.full) :
    (retV = 0 → retF ≠ 0 →
      extractor_tail vulOut fixOut retV leftV retF leftF
        = ((true, false),
           [⟨vulOut ++ "/build.sh".toList, CODEQL_BUILD_SH, true⟩],
           [vulOut])) ∧
    (retV ≠ 0 → retF = 0 →
      extractor_tail vulOut fixOut retV leftV retF leftF
        = ((false, true),
           [⟨fixOut ++ "/build.sh".toList, CODEQL_BUILD_SH, true⟩],
           [fixOut])) := by
  constructor
  · intro hv hf
    rcases hFailF hf with hl | hl <;>
      simp [extractor_tail, docker_cp_dir, hv, hf, hSuccV hv, hl,
        existing_out_dirs, dirExists, install_codeql_build_sh]
  · intro hv hf
    rcases hFailV hv with hl | hl <;>
      simp [extractor_tail, docker_cp_dir, hv, hf, hSuccF hf, hl,
        existing_out_dirs, dirExists, install_codeql_build_sh]

/-- Claim C5, witnessed with the vul copy succeeding and the fix copy
failing after creating an empty directory. -/
theorem extractor_tail_one_variant_w :
    extractor_tail "v".toList "f".toList 0 DirContent.full
        1 DirContent.emptyDir
      = ((true, false),
         [⟨"v".toList ++ "/build.sh".toList, CODEQL_BUILD_SH, true⟩],
         ["v".toList]) :=
  (extractor_tail_one_variant "v".toList "f".toList 0 DirContent.full
      1 DirContent.emptyDir
      (fun h => absurd rfl h) (fun _ => rfl)
      (fun _ => Or.inr rfl) (fun h => absurd h (by decide))).1
    rfl (by decide)

/-- Claim C6: every write performed by `install_codeql_build_sh`, across
any two invocations and any destination directories, carries the same
byte-identical content: the fixed constant `CODEQL_BUILD_SH`. -/
theorem install_codeql_build_sh_constant_content
    (ds1 ds2 : List (List Char)) (w1 w2 : ScriptWrite)
    (h1 : w1 ∈ install_codeql_build_sh ds1)
    (h2 : w2 ∈ install_codeql_build_sh ds2) :
    w1.content = CODEQL_BUILD_SH ∧ w1.content = w2.content := by
  simp only [install_codeql_build_sh, List.mem_map] at h1 h2
  obtain ⟨d1, _, rfl⟩ := h1
  obtain ⟨d2, _, rfl⟩ := h2
  exact ⟨rfl, rfl⟩

/-- Claim C6, witnessed on two concrete invocations. -/
theorem install_codeql_build_sh_constant_content_w :
    (⟨"a".toList ++ "/build.sh".toList, CODEQL_BUILD_SH, true⟩ :
        ScriptWrite).content
      = CODEQL_BUILD_SH :=
  (install_codeql_build_sh_constant_content ["a".toList] ["b".toList]
    ⟨"a".toList ++ "/build.sh".toList, CODEQL_BUILD_SH, true⟩
    ⟨"b".toList ++ "/build.sh".toList, CODEQL_BUILD_SH, true⟩
    (by simp [install_codeql_build_sh])
    (by simp [install_codeql_build_sh])).1

/-- The externally visible state changes of the installer's CLI download
step (`install_codeql.py` lines 27-31). -/
inductive InstallAction : Type
  | downloadZip : InstallAction
  | extractZip : InstallAction
  | removeZip : InstallAction
deriving DecidableEq

/-- Models `download_and_extract_codeql` of `install_codeql.py`
(lines 21-37): if the target binary already exists the step returns early;
otherwise it downloads, extracts and removes the archive, then exits with
code 1 when the binary still does not exist. `binExists` is the
`Path(CODEQL_BIN).exists()` check on entry, `binExistsAfter` the one after
extraction. Returns the actions performed and the step's outcome. -/
def download_and_extract_codeql (binExists binExistsAfter : Bool) :
    List InstallAction × Except Nat Unit :=
  if binExists then
    ([], Except.ok ())
  else
    ([InstallAction.downloadZip, InstallAction.extractZip,
      InstallAction.removeZip],
     if binExistsAfter then Except.ok () else Except.error 1)

/-- Claim C7: when the target codeql binary already exists, the download
step performs no download, extraction or removal and finishes without
error, whatever the later existence check would say. -/
theorem codeql_already_installed_skips (binExistsAfter : Bool) :
    download_and_extract_codeql true binExistsAfter
      = ([], Except.ok ()) := rfl

/-- Claim C7, witnessed at a concrete flag value. -/
theorem codeql_already_installed_skips_w :
    download_and_extract_codeql true false = ([], Except.ok ()) :=
  codeql_already_installed_skips false

/-- Models Python's substring test `needle in hay`. -/
def pyIn (needle : List Char) : List Char → Bool
  | [] => needle.isPrefixOf []
  | c :: t => needle.isPrefixOf (c :: t) || pyIn needle t

/-- Models `CODEQL_CLI_DIR = os.path.expanduser("~/codeql-cli")` of
`install_codeql.py` line 9, with the home directory explicit. -/
def CODEQL_CLI_DIR (home : List Char) : List Char :=
  home ++ "/codeql-cli".toList

/-- Models `CODEQL_BIN = os.path.join(CODEQL_CLI_DIR, "codeql")` of
`install_codeql.py` line 10. -/
def CODEQL_BIN (home : List Char) : List Char :=
  CODEQL_CLI_DIR home ++ "/codeql".toList

/-- Models `export_cmd` of `install_codeql.py` line 62. -/
def export_cmd (home : List Char) : List Char :=
  "export CODEQL_CLI=\"".toList ++ CODEQL_BIN home ++ "\"".toList

/-- Models `path_cmd` of `install_codeql.py` line 63. -/
def path_cmd : List Char :=
  "export PATH=\"$CODEQL_CLI:$PATH\"".toList

/-- The text appended to the shell profile by `install_codeql.py` line 70:
`f"\n# CodeQL setup\n\x7bexport_cmd\x7d\n\x7bpath_cmd\x7d\n"`. -/
def codeql_setup_block (home : List Char) : List Char :=
  "\n# CodeQL setup\n".toList ++ export_cmd home ++ "\n".toList
    ++ path_cmd ++ "\n".toList

/-- The state touched by `configure_env`: the `~/.bashrc` file (`none`
when absent) and the `CODEQL_CLI` process environment variable. -/
structure ShellEnv : Type where
  bashrc : Option (List Char)
  codeql_cli_var : Option (List Char)
deriving DecidableEq

/-- Models `configure_env` of `install_codeql.py` (lines 60-75): append
the setup block to the profile unless the file exists and already contains
the export line (opening in append mode creates a missing file), then set
`CODEQL_CLI` in the process environment unconditionally. -/
def configure_env (home : List Char) (s : ShellEnv) : ShellEnv :=
  let already :=
    match s.bashrc with
    | some content => pyIn (export_cmd home) content
    | none => false
  { bashrc :=
      if already then s.bashrc
      else some (s.bashrc.getD [] ++ codeql_setup_block home),
    codeql_cli_var := some (CODEQL_BIN home) }

/-- Claim C10: on every run `configure_env` sets the `CODEQL_CLI` process
variable to the codeql binary path, and it appends to the profile file
exactly when the file is absent or lacks the export line, leaving a
profile that already contains the line untouched. -/
theorem configure_env_sets_var_appends_once (home : List Char)
    (s : ShellEnv) :
    (configure_env home s).codeql_cli_var = some (CODEQL_BIN home) ∧
    (∀ content, s.bashrc = some content →
      pyIn (export_cmd home) content = true →
      (configure_env home s).bashrc = s.bashrc) ∧
    (∀ content, s.bashrc = some content →
      pyIn (export_cmd home) content = false →
      (configure_env home s).bashrc
        = some (content ++ codeql_setup_block home)) ∧
    (s.bashrc = none →
      (configure_env home s).bashrc = some (codeql_setup_block home)) := by
  refine ⟨rfl, ?_, ?_, ?_⟩
  · intro content hc hin
    simp [configure_env, hc, hin]
  · intro content hc hin
    simp [configure_env, hc, hin]
  · intro hc
    simp [configure_env, hc]

/-- Claim C10, witnessed on a missing profile file. -/
theorem configure_env_sets_var_appends_once_w :
    (configure_env "/root".toList ⟨none, none⟩).codeql_cli_var
      = some (CODEQL_BIN "/root".toList) ∧
    (configure_env "/root".toList ⟨none, none⟩).bashrc
      = some (codeql_setup_block "/root".toList) :=
  ⟨(configure_env_sets_var_appends_once "/root".toList ⟨none, none⟩).1,
   (configure_env_sets_var_appends_once "/root".toList ⟨none, none⟩).2.2.2
     rfl⟩
